import Mathlib

set_option maxHeartbeats 1000000
set_option maxRecDepth 4000

/-
Verification of the nano-banana VLM tool adapter
(amplifier_module_tool_nano_banana/tool.py).

The Python adapter is embedded shallowly: external collaborators (the file
system, the remote provider, the event bus, the environment) are modelled as
a record of functions from inputs to Except-style outcomes, and `execute` is
translated into a pure function returning the list of externally observable
events it performed together with its outcome (a returned ToolResult, or a
Python exception escaping the call).
-/

/-- Raw file bytes; contents are irrelevant to the adapter, only identity. -/
abbrev Bytes := List Nat

/-- The two classes of Python exceptions the adapter distinguishes:
FileNotFoundError versus every other exception. The string models str(e). -/
inductive PyExn where
  | fileNotFound (msg : String)
  | other (msg : String)
deriving DecidableEq

/-- One element of the contents sequence passed to generate_content:
plain text, or an inline binary payload with its MIME type. -/
inductive Content where
  | text (s : String)
  | inline (mime_type : String) (data : Bytes)
deriving DecidableEq

/-- One part of a provider response: optional inline image data and
optional text, mirroring the attributes read by the generate branch. -/
structure GCPart where
  inline_data : Option Bytes
  text : Option String
deriving DecidableEq

/-- A provider response: the top-level text read by analyze and compare,
and the parts sequence iterated by generate. -/
structure GCResponse where
  text : Option String
  parts : List GCPart
deriving DecidableEq

/-- Payload of a coordinator.hooks.emit call, one constructor per event
name used by the adapter. -/
inductive EmitPayload where
  | analyze (image_path model : String) (prompt_length : Nat)
  | compare (image1_path image2_path model : String) (prompt_length : Nat)
  | generate (output_path model : String) (prompt_length : Nat) (number_of_images : Int)
  | error (error : String) (operation : Option String)
deriving DecidableEq

/-- Externally observable actions of one execute call, in order. -/
inductive Event where
  | emit (p : EmitPayload)
  | fileRead (path : String)
  | mkdir (path : String)
  | fileWrite (path : String)
  | remoteCall (model : String) (contents : List Content)
deriving DecidableEq

/-- The structured or plain-string output field of a ToolResult. -/
inductive Output where
  | str (s : String)
  | analysis (t : Option String)
  | comparison (t : Option String)
  | generated (generated_images : List String) (count : Nat) (text : Option String)
deriving DecidableEq

/-- The error payload dict of a failed ToolResult. -/
structure ErrorPayload where
  message : String
deriving DecidableEq

/-- The uniform result structure returned by execute. -/
structure ToolResult where
  success : Bool
  output : Output
  error : Option ErrorPayload
deriving DecidableEq

/-- Outcome of one execute call: a returned ToolResult, or a Python
exception escaping the call boundary. -/
inductive ExecOutcome where
  | ok (r : ToolResult)
  | raised (e : PyExn)
deriving DecidableEq

/-- The input_data mapping: each schema field either present or absent. -/
structure InputData where
  operation : Option String
  prompt : Option String
  image_path : Option String
  image1_path : Option String
  image2_path : Option String
  image1_label : Option String
  image2_label : Option String
  output_path : Option String
  number_of_images : Option Int
deriving DecidableEq

/-- The config mapping given to the constructor. -/
structure Config where
  api_key : Option String
  working_dir : Option String
deriving DecidableEq

/-- Adapter state captured at construction. -/
structure NanoBananaTool where
  api_key : Option String
  working_dir : Option String
deriving DecidableEq

/-- Behaviour of all external collaborators during one execute call:
the event bus, the file system, the remote provider, the home directory
used for user expansion, and the process environment. execute never
consults env_GOOGLE_API_KEY; it is present so that independence from the
call-time environment is expressible. -/
structure World where
  emit : EmitPayload → Except PyExn Unit
  readFile : String → Except PyExn Bytes
  mkdir : String → Except PyExn Unit
  writeFile : String → Bytes → Except PyExn Unit
  generate_content : String → List Content → Except PyExn GCResponse
  home : String
  env_GOOGLE_API_KEY : Option String

/-- Python truthiness of an optional string: None and the empty string
are falsy. -/
def pyTruthy : Option String → Bool
  | none => false
  | some s => !(s == "")

/-- Python str() of an optional string as interpolated into an f-string:
None renders as the literal None. -/
def pyStrOfOptionString : Option String → String
  | some s => s
  | none => "None"

/-- A pathlib PurePosixPath: an absolute flag and the normalized list of
components (empty and single-dot components dropped, as pathlib does). -/
structure PyPath where
  absolute : Bool
  parts : List String
deriving DecidableEq

/-- Split a character list on a separator character. -/
def splitOnSep (sep : Char) : List Char → List (List Char)
  | [] => [[]]
  | c :: cs =>
    let r := splitOnSep sep cs
    if c = sep then [] :: r
    else
      match r with
      | [] => [[c]]
      | g :: gs => (c :: g) :: gs

/-- Whether a path string denotes an absolute POSIX path. -/
def startsWithSlash (s : String) : Bool :=
  match s.data with
  | c :: _ => c == '/'
  | [] => false

/-- Parse a path string into a PyPath, as the PurePosixPath constructor
normalizes it. -/
def PyPath.parse (s : String) : PyPath :=
  let comps := (splitOnSep '/' s.data).map (fun cs => String.mk cs)
  ⟨startsWithSlash s, comps.filter (fun c => !(c == "") && !(c == "."))⟩

/-- Join path components with slashes. -/
def joinParts : List String → String
  | [] => ""
  | [p] => p
  | p :: ps => p ++ "/" ++ joinParts ps

/-- Render a PyPath as str() renders a PurePosixPath. -/
def PyPath.str (p : PyPath) : String :=
  if p.absolute then "/" ++ joinParts p.parts
  else if p.parts = [] then "." else joinParts p.parts

/-- The final component of the path, or the empty string. -/
def PyPath.name (p : PyPath) : String :=
  (p.parts.getLast?).getD ""

/-- The logical parent: all but the final component. -/
def PyPath.parent (p : PyPath) : PyPath :=
  ⟨p.absolute, p.parts.dropLast⟩

/-- Split a character list at its last dot: the characters before it and
the characters after it, or none when no dot occurs. -/
def splitAtLastDot : List Char → Option (List Char × List Char)
  | [] => none
  | c :: cs =>
    match splitAtLastDot cs with
    | some (b, a) => some (c :: b, a)
    | none => if c = '.' then some ([], cs) else none

/-- The file extension of the final component, pathlib style: nonempty
only when the last dot is neither the first nor the last character. -/
def PyPath.suffix (p : PyPath) : String :=
  match splitAtLastDot p.name.data with
  | some (b, a) => if b ≠ [] ∧ a ≠ [] then String.mk ('.' :: a) else ""
  | none => ""

/-- The final component with its extension removed, pathlib style. -/
def PyPath.stem (p : PyPath) : String :=
  match splitAtLastDot p.name.data with
  | some (b, a) => if b ≠ [] ∧ a ≠ [] then String.mk b else p.name
  | none => p.name

/-- Join two paths as the pathlib slash operator does: an absolute right
operand replaces the left one. -/
def PyPath.join (a b : PyPath) : PyPath :=
  if b.absolute then b else ⟨a.absolute, a.parts ++ b.parts⟩

/-- Expand a leading bare tilde component to the home directory, as
Path.expanduser does on relative paths. Named-user tilde components are
left unchanged in this model (no claim exercises them). -/
def PyPath.expanduser (home : String) (p : PyPath) : PyPath :=
  if p.absolute then p
  else
    match p.parts with
    | x :: rest =>
      if x = "~" then
        let h := PyPath.parse home
        ⟨h.absolute, h.parts ++ rest⟩
      else p
    | [] => p

/-- Construction: the api_key falls back from the config value to the
GOOGLE_API_KEY environment value read once at construction, with Python
or-semantics (a falsy config value falls through). -/
def NanoBananaTool.init (config : Config) (env_GOOGLE_API_KEY : Option String) : NanoBananaTool :=
  { api_key := if pyTruthy config.api_key then config.api_key else env_GOOGLE_API_KEY
    working_dir := config.working_dir }

/-- The fixed model identifier. -/
def modelName : String := "gemini-3-pro-image-preview"

/-- The uniform failure result shape used on every failure path. -/
def errResult (error_msg : String) : ToolResult :=
  { success := false, output := Output.str error_msg, error := some ⟨error_msg⟩ }

/-- The message returned when no API key is available. -/
def apiKeyErrorMsg : String :=
  "GOOGLE_API_KEY environment variable not set. " ++
  "Get your API key from: https://aistudio.google.com/apikey"

/-- Path resolution: expand the user shorthand, then join a relative
result under a truthy working_dir. -/
def NanoBananaTool._resolve_path (t : NanoBananaTool) (home : String) (path_str : String) : PyPath :=
  let path := (PyPath.parse path_str).expanduser home
  match t.working_dir with
  | some wd => if !path.absolute && !(wd == "") then (PyPath.parse wd).join path else path
  | none => path

/-- ASCII lowercase of a string. -/
def lowerStr (s : String) : String :=
  String.mk (s.data.map Char.toLower)

/-- The fragment of the mimetypes table relevant to image extensions;
the stdlib table is larger but agrees on these entries. -/
def mimeTable : List (String × String) :=
  [(".png", "image/png"), (".jpg", "image/jpeg"), (".jpeg", "image/jpeg"),
   (".gif", "image/gif"), (".webp", "image/webp"), (".bmp", "image/bmp"),
   (".tif", "image/tiff"), (".tiff", "image/tiff"), (".svg", "image/svg+xml")]

/-- MIME detection from the file extension, defaulting to image/png. -/
def _get_mime_type (file_path : PyPath) : String :=
  let ext := lowerStr file_path.suffix
  match mimeTable.find? (fun kv => kv.fst == ext) with
  | some kv => kv.snd
  | none => "image/png"

/-- The message the two except clauses build from an exception. -/
def exnMessage : PyExn → String
  | PyExn.fileNotFound m => "Image file not found: " ++ m
  | PyExn.other m => "VLM request failed: " ++ m

/-- The per-image output path chosen inside the generate write loop:
the output path itself when one image was requested, otherwise the path
with an underscore index inserted before the extension. -/
def genOutputName (output_path : PyPath) (number_of_images : Int) (k : Nat) : PyPath :=
  if number_of_images == 1 then output_path
  else
    output_path.parent.join
      (PyPath.parse (output_path.stem ++ "_" ++ toString k ++ output_path.suffix))

/-- The generate write loop over response parts: skip non-image parts,
create the parent directory and write each image, and stop once
number_of_images images have been written. -/
def writeLoop (mkdirF : String → Except PyExn Unit)
    (writeF : String → Bytes → Except PyExn Unit) (output_path : PyPath)
    (number_of_images : Int) :
    List GCPart → List String → Nat → List Event × Except PyExn (List String × Nat)
  | [], generated_paths, image_count => ([], Except.ok (generated_paths, image_count))
  | part :: rest, generated_paths, image_count =>
    match part.inline_data with
    | none => writeLoop mkdirF writeF output_path number_of_images rest generated_paths image_count
    | some image_data =>
      let current_output := genOutputName output_path number_of_images (image_count + 1)
      match mkdirF current_output.parent.str with
      | Except.error e => ([Event.mkdir current_output.parent.str], Except.error e)
      | Except.ok _ =>
        match writeF current_output.str image_data with
        | Except.error e =>
          ([Event.mkdir current_output.parent.str, Event.fileWrite current_output.str],
           Except.error e)
        | Except.ok _ =>
          let generated_paths := generated_paths ++ [current_output.str]
          let image_count := image_count + 1
          if number_of_images ≤ (image_count : Int) then
            ([Event.mkdir current_output.parent.str, Event.fileWrite current_output.str],
             Except.ok (generated_paths, image_count))
          else
            let step := writeLoop mkdirF writeF output_path number_of_images rest
              generated_paths image_count
            (Event.mkdir current_output.parent.str :: Event.fileWrite current_output.str :: step.1,
             step.2)

/-- The try-block body of execute: dispatch on the operation string and
run the selected operation, returning the events performed and either a
ToolResult returned normally or the exception that aborted the body. -/
def NanoBananaTool.tryBody (t : NanoBananaTool) (w : World) (input_data : InputData) :
    List Event × Except PyExn ToolResult :=
  let operation := input_data.operation
  let prompt := input_data.prompt.getD ""
  if operation = some "analyze" then
    if pyTruthy input_data.image_path = false then
      ([], Except.ok (errResult "image_path required for analyze operation"))
    else
      let image_path := t._resolve_path w.home (input_data.image_path.getD "")
      let ev := EmitPayload.analyze image_path.str modelName prompt.length
      match w.emit ev with
      | Except.error e => ([Event.emit ev], Except.error e)
      | Except.ok _ =>
        match w.readFile image_path.str with
        | Except.error e => ([Event.emit ev, Event.fileRead image_path.str], Except.error e)
        | Except.ok image_data =>
          let mime_type := _get_mime_type image_path
          let contents := [Content.text prompt, Content.inline mime_type image_data]
          match w.generate_content modelName contents with
          | Except.error e =>
            ([Event.emit ev, Event.fileRead image_path.str,
              Event.remoteCall modelName contents], Except.error e)
          | Except.ok response =>
            ([Event.emit ev, Event.fileRead image_path.str,
              Event.remoteCall modelName contents],
             Except.ok { success := true, output := Output.analysis response.text, error := none })
  else if operation = some "compare" then
    if (pyTruthy input_data.image1_path && pyTruthy input_data.image2_path) = false then
      ([], Except.ok (errResult "image1_path and image2_path required for compare operation"))
    else
      let image1_path := t._resolve_path w.home (input_data.image1_path.getD "")
      let image2_path := t._resolve_path w.home (input_data.image2_path.getD "")
      let ev := EmitPayload.compare image1_path.str image2_path.str modelName prompt.length
      match w.emit ev with
      | Except.error e => ([Event.emit ev], Except.error e)
      | Except.ok _ =>
        match w.readFile image1_path.str with
        | Except.error e => ([Event.emit ev, Event.fileRead image1_path.str], Except.error e)
        | Except.ok image1_data =>
          match w.readFile image2_path.str with
          | Except.error e =>
            ([Event.emit ev, Event.fileRead image1_path.str,
              Event.fileRead image2_path.str], Except.error e)
          | Except.ok image2_data =>
            let mime_type1 := _get_mime_type image1_path
            let mime_type2 := _get_mime_type image2_path
            let label1 := input_data.image1_label.getD "IMAGE 1"
            let label2 := input_data.image2_label.getD "IMAGE 2"
            let contents := [Content.text prompt,
              Content.inline mime_type1 image1_data,
              Content.text ("^ " ++ label1),
              Content.inline mime_type2 image2_data,
              Content.text ("^ " ++ label2)]
            match w.generate_content modelName contents with
            | Except.error e =>
              ([Event.emit ev, Event.fileRead image1_path.str,
                Event.fileRead image2_path.str,
                Event.remoteCall modelName contents], Except.error e)
            | Except.ok response =>
              ([Event.emit ev, Event.fileRead image1_path.str,
                Event.fileRead image2_path.str,
                Event.remoteCall modelName contents],
               Except.ok { success := true, output := Output.comparison response.text,
                           error := none })
  else if operation = some "generate" then
    if pyTruthy input_data.output_path = false then
      ([], Except.ok (errResult "output_path required for generate operation"))
    else
      let output_path := t._resolve_path w.home (input_data.output_path.getD "")
      let number_of_images := input_data.number_of_images.getD 1
      if number_of_images < 1 ∨ number_of_images > 4 then
        ([], Except.ok (errResult "number_of_images must be between 1 and 4"))
      else
        let ev := EmitPayload.generate output_path.str modelName prompt.length number_of_images
        match w.emit ev with
        | Except.error e => ([Event.emit ev], Except.error e)
        | Except.ok _ =>
          let contents := [Content.text prompt]
          match w.generate_content modelName contents with
          | Except.error e =>
            ([Event.emit ev, Event.remoteCall modelName contents], Except.error e)
          | Except.ok response =>
            let pre := [Event.emit ev, Event.remoteCall modelName contents]
            match writeLoop w.mkdir w.writeFile output_path number_of_images
              response.parts [] 0 with
            | (wtr, Except.error e) => (pre ++ wtr, Except.error e)
            | (wtr, Except.ok (generated_paths, _)) =>
              if generated_paths = [] then
                (pre ++ wtr, Except.ok (errResult "No images were generated by the model"))
              else
                (pre ++ wtr,
                 Except.ok { success := true,
                             output := Output.generated generated_paths generated_paths.length
                               (response.parts.findSome? GCPart.text),
                             error := none })
  else
    ([], Except.ok (errResult ("Unknown operation: " ++ pyStrOfOptionString operation ++
      ". Use \x27analyze\x27, \x27compare\x27, or \x27generate\x27")))

/-- The execute entry point: the API-key gate, then the try body, and
the two except clauses converting an exception into a failure result
after a tool.vlm.error emit that is itself unguarded. -/
def NanoBananaTool.execute (t : NanoBananaTool) (w : World) (input_data : InputData) :
    List Event × ExecOutcome :=
  if pyTruthy t.api_key = false then
    ([], ExecOutcome.ok (errResult apiKeyErrorMsg))
  else
    match t.tryBody w input_data with
    | (tr, Except.ok r) => (tr, ExecOutcome.ok r)
    | (tr, Except.error e) =>
      let error_msg := exnMessage e
      let ev := EmitPayload.error error_msg input_data.operation
      match w.emit ev with
      | Except.ok _ => (tr ++ [Event.emit ev], ExecOutcome.ok (errResult error_msg))
      | Except.error e2 => (tr ++ [Event.emit ev], ExecOutcome.raised e2)

/-- The inline image payloads of a response, in provider order. -/
def imageDatas (parts : List GCPart) : List Bytes :=
  parts.filterMap GCPart.inline_data

/-- The output paths the write loop chooses for images start+1, start+2,
and so on, for a given requested count. -/
def expNames (output_path : PyPath) (number_of_images : Int) (start : Nat) : Nat → List String
  | 0 => []
  | m + 1 =>
    (genOutputName output_path number_of_images (start + 1)).str ::
      expNames output_path number_of_images (start + 1) m

/-- The event sequence of the write loop: for each written image, the
parent-directory creation immediately followed by the write. -/
def expWriteEvents (output_path : PyPath) (number_of_images : Int) (start : Nat) : Nat → List Event
  | 0 => []
  | m + 1 =>
    Event.mkdir (genOutputName output_path number_of_images (start + 1)).parent.str ::
      Event.fileWrite (genOutputName output_path number_of_images (start + 1)).str ::
        expWriteEvents output_path number_of_images (start + 1) m

theorem expNames_length (output_path : PyPath) (n : Int) :
    ∀ (m start : Nat), (expNames output_path n start m).length = m := by
  intro m
  induction m with
  | zero => intro start; rfl
  | succ m ih => intro start; simp [expNames, ih]

theorem expNames_get (output_path : PyPath) (n : Int) :
    ∀ (m start i : Nat) (h : i < (expNames output_path n start m).length),
      (expNames output_path n start m).get ⟨i, h⟩ =
        (genOutputName output_path n (start + i + 1)).str := by
  intro m
  induction m with
  | zero => intro start i h; simp [expNames] at h
  | succ m ih =>
    intro start i h
    cases i with
    | zero => rfl
    | succ i =>
      have h2 : i < (expNames output_path n (start + 1) m).length := by
        simpa [expNames] using h
      have h3 : start + 1 + i + 1 = start + (i + 1) + 1 := by omega
      calc (expNames output_path n start (m + 1)).get ⟨i + 1, h⟩
          = (expNames output_path n (start + 1) m).get ⟨i, h2⟩ := rfl
        _ = (genOutputName output_path n (start + 1 + i + 1)).str := ih (start + 1) i h2
        _ = (genOutputName output_path n (start + (i + 1) + 1)).str := by rw [h3]

/-- Loop invariant of the generate write loop when every mkdir and write
succeeds: starting below the requested count, it writes the images in
provider order to the indexed paths, stopping at the requested count. -/
theorem writeLoop_spec (mkdirF : String → Except PyExn Unit)
    (writeF : String → Bytes → Except PyExn Unit) (out : PyPath) (n : Int)
    (hmk : ∀ p, mkdirF p = Except.ok ())
    (hwr : ∀ p d, writeF p d = Except.ok ()) :
    ∀ (parts : List GCPart) (acc : List String) (count : Nat), (count : Int) < n →
      writeLoop mkdirF writeF out n parts acc count =
        (expWriteEvents out n count (min (imageDatas parts).length (n.toNat - count)),
         Except.ok
           (acc ++ expNames out n count (min (imageDatas parts).length (n.toNat - count)),
            count + min (imageDatas parts).length (n.toNat - count))) := by
  intro parts
  induction parts with
  | nil =>
    intro acc count h
    simp [writeLoop, imageDatas, expWriteEvents, expNames]
  | cons part rest ih =>
    intro acc count h
    rcases hpd : part.inline_data with _ | data
    · have hstep : writeLoop mkdirF writeF out n (part :: rest) acc count =
          writeLoop mkdirF writeF out n rest acc count := by
        simp [writeLoop, hpd]
      have himg : imageDatas (part :: rest) = imageDatas rest := by
        simp [imageDatas, hpd]
      rw [hstep, ih acc count h, himg]
    · have himg : imageDatas (part :: rest) = data :: imageDatas rest := by
        simp [imageDatas, hpd]
      by_cases hstop : n ≤ (count : Int) + 1
      · have hmin : min (imageDatas (part :: rest)).length (n.toNat - count) = 1 := by
          rw [himg]
          simp only [List.length_cons]
          omega
        rw [hmin]
        have hstep : writeLoop mkdirF writeF out n (part :: rest) acc count =
            ([Event.mkdir (genOutputName out n (count + 1)).parent.str,
              Event.fileWrite (genOutputName out n (count + 1)).str],
             Except.ok (acc ++ [(genOutputName out n (count + 1)).str], count + 1)) := by
          simp [writeLoop, hpd, hmk, hwr, hstop]
        rw [hstep]
        simp [expWriteEvents, expNames]
      · have h2 : ((count + 1 : Nat) : Int) < n := by push_cast; omega
        have hmin : min (imageDatas (part :: rest)).length (n.toNat - count) =
            min (imageDatas rest).length (n.toNat - (count + 1)) + 1 := by
          rw [himg]
          simp only [List.length_cons]
          omega
        rw [hmin]
        have hstep : writeLoop mkdirF writeF out n (part :: rest) acc count =
            (Event.mkdir (genOutputName out n (count + 1)).parent.str ::
              Event.fileWrite (genOutputName out n (count + 1)).str ::
                (writeLoop mkdirF writeF out n rest
                  (acc ++ [(genOutputName out n (count + 1)).str]) (count + 1)).1,
             (writeLoop mkdirF writeF out n rest
               (acc ++ [(genOutputName out n (count + 1)).str]) (count + 1)).2) := by
          simp [writeLoop, hpd, hmk, hwr, hstop]
        rw [hstep, ih (acc ++ [(genOutputName out n (count + 1)).str]) (count + 1) h2]
        simp only [expWriteEvents, expNames, List.append_assoc, List.cons_append,
          List.nil_append, Prod.mk.injEq, Except.ok.injEq, true_and, and_true]
        omega

/-- A world where every external operation succeeds deterministically. -/
def trivialWorld : World :=
  { emit := fun _ => Except.ok ()
    readFile := fun _ => Except.ok [0]
    mkdir := fun _ => Except.ok ()
    writeFile := fun _ _ => Except.ok ()
    generate_content := fun _ _ => Except.ok ⟨some "ok", [⟨some [1], none⟩]⟩
    home := "/home/user"
    env_GOOGLE_API_KEY := none }

/-- An input mapping with every field absent. -/
def emptyInput : InputData :=
  { operation := none, prompt := none, image_path := none, image1_path := none,
    image2_path := none, image1_label := none, image2_label := none,
    output_path := none, number_of_images := none }

/-- Claim C1: with a falsy api_key in config and a falsy GOOGLE_API_KEY
environment value at construction, execute returns a failure whose output
and error message carry the GOOGLE_API_KEY hint, with an empty event
trace: no file access, no notification, no remote call, and this happens
before any operation dispatch. -/
theorem c1_api_key_gate (config : Config) (env0 : Option String) (w : World)
    (input_data : InputData)
    (hcfg : pyTruthy config.api_key = false) (henv : pyTruthy env0 = false) :
    (NanoBananaTool.init config env0).execute w input_data =
      ([], ExecOutcome.ok (errResult apiKeyErrorMsg)) ∧
    (errResult apiKeyErrorMsg).success = false ∧
    (errResult apiKeyErrorMsg).output = Output.str apiKeyErrorMsg ∧
    (errResult apiKeyErrorMsg).error = some ⟨apiKeyErrorMsg⟩ ∧
    ∃ pre post, apiKeyErrorMsg = pre ++ "GOOGLE_API_KEY" ++ post := by
  have hkey : pyTruthy (NanoBananaTool.init config env0).api_key = false := by
    simp [NanoBananaTool.init, hcfg, henv]
  refine ⟨?_, rfl, rfl, rfl, "",
    " environment variable not set. Get your API key from: https://aistudio.google.com/apikey",
    by decide⟩
  simp [NanoBananaTool.execute, hkey]

theorem c1_api_key_gate_witness :
    (NanoBananaTool.init ⟨none, none⟩ none).execute trivialWorld emptyInput =
      ([], ExecOutcome.ok (errResult apiKeyErrorMsg)) :=
  (c1_api_key_gate ⟨none, none⟩ none trivialWorld emptyInput rfl rfl).1

/-- Claim C6: path resolution expands the user shorthand first, joins a
relative expanded path under a truthy configured working_dir, and
otherwise — for an absolute expanded path, or when working_dir is
unconfigured (absent or empty) — returns the expanded path itself; it is
deterministic, with equal inputs (path string, configured working_dir,
and home used by the expansion) always yielding equal resolved paths;
"a.png" under working_dir "/work" resolves to "/work/a.png", and
"/abs/a.png" resolves to itself whatever the working_dir. -/
theorem c6_resolve_path (t : NanoBananaTool) (home p : String) :
    (∀ wd, t.working_dir = some wd → wd ≠ "" →
        ((PyPath.parse p).expanduser home).absolute = false →
        t._resolve_path home p = (PyPath.parse wd).join ((PyPath.parse p).expanduser home)) ∧
    (((PyPath.parse p).expanduser home).absolute = true →
        t._resolve_path home p = (PyPath.parse p).expanduser home) ∧
    (t.working_dir = none → t._resolve_path home p = (PyPath.parse p).expanduser home) ∧
    (t.working_dir = some "" → t._resolve_path home p = (PyPath.parse p).expanduser home) ∧
    (∀ (t2 : NanoBananaTool) (home2 p2 : String), t2.working_dir = t.working_dir →
        home2 = home → p2 = p → t2._resolve_path home2 p2 = t._resolve_path home p) ∧
    (t.working_dir = some "/work" → p = "a.png" →
        (t._resolve_path home p).str = "/work/a.png") ∧
    (p = "/abs/a.png" → (t._resolve_path home p).str = "/abs/a.png") := by
  refine ⟨?_, ?_, ?_, ?_, ?_, ?_, ?_⟩
  · intro wd hwd hne habs
    simp [NanoBananaTool._resolve_path, hwd, habs, hne]
  · intro habs
    cases hwd : t.working_dir with
    | none => simp [NanoBananaTool._resolve_path, hwd]
    | some wd => simp [NanoBananaTool._resolve_path, hwd, habs]
  · intro hwd
    simp [NanoBananaTool._resolve_path, hwd]
  · intro hwd
    simp [NanoBananaTool._resolve_path, hwd]
  · intro t2 home2 p2 h1 h2 h3
    subst h2
    subst h3
    simp [NanoBananaTool._resolve_path, h1]
  · intro hwd hp
    subst hp
    have hexp : (PyPath.parse "a.png").expanduser home = PyPath.parse "a.png" := rfl
    simp only [NanoBananaTool._resolve_path, hexp, hwd]
    decide
  · intro hp
    subst hp
    have hexp : (PyPath.parse "/abs/a.png").expanduser home = PyPath.parse "/abs/a.png" := rfl
    have habs : (PyPath.parse "/abs/a.png").absolute = true := rfl
    cases hwd : t.working_dir with
    | none =>
      simp only [NanoBananaTool._resolve_path, hexp, hwd]
      decide
    | some wd =>
      simp only [NanoBananaTool._resolve_path, hexp, hwd]
      rfl

theorem c6_resolve_path_witness :
    ((NanoBananaTool.mk none (some "/work"))._resolve_path "/home/user" "a.png").str =
      "/work/a.png" :=
  (c6_resolve_path (NanoBananaTool.mk none (some "/work")) "/home/user" "a.png").2.2.2.2.2.1
    rfl rfl

/-- Claim C8: execute never rejects a request for a missing prompt; a
request lacking the prompt field behaves exactly as the same request
with the empty-string prompt (so validation proceeds, pre-call
notifications carry prompt length zero, and the provider receives empty
text). -/
theorem c8_missing_prompt_defaults_empty (t : NanoBananaTool) (w : World)
    (input_data : InputData) :
    t.execute w { input_data with prompt := none } =
      t.execute w { input_data with prompt := some "" } := by
  cases input_data
  rfl

/-- Claim C9: the api key is resolved once, at construction, as the
config value or (when that is falsy) the construction-time
GOOGLE_API_KEY environment value; the whole execute call, and hence the
api-key gate, is unchanged by any value of the call-time environment
variable. -/
theorem c9_api_key_snapshot (config : Config) (env0 a b : Option String) (w : World)
    (input_data : InputData) :
    (NanoBananaTool.init config env0).execute { w with env_GOOGLE_API_KEY := a } input_data =
      (NanoBananaTool.init config env0).execute { w with env_GOOGLE_API_KEY := b } input_data ∧
    pyTruthy (NanoBananaTool.init config env0).api_key =
      (pyTruthy config.api_key || pyTruthy env0) := by
  constructor
  · cases w
    simp only [NanoBananaTool.execute, NanoBananaTool.tryBody]
  · cases hc : pyTruthy config.api_key <;> simp [NanoBananaTool.init, hc]

/-- Claim C7: with an available api key, each validation failure returns
success=false with a message naming the offending field or the unknown
operation, with an empty event trace: no notification, no file access,
no remote call. -/
theorem c7_validation_short_circuit (t : NanoBananaTool) (w : World) (input_data : InputData)
    (hkey : pyTruthy t.api_key = true) :
    (input_data.operation = some "analyze" → pyTruthy input_data.image_path = false →
        t.execute w input_data =
          ([], ExecOutcome.ok (errResult "image_path required for analyze operation"))) ∧
    (input_data.operation = some "compare" →
        (pyTruthy input_data.image1_path && pyTruthy input_data.image2_path) = false →
        t.execute w input_data =
          ([], ExecOutcome.ok
            (errResult "image1_path and image2_path required for compare operation"))) ∧
    (input_data.operation = some "generate" → pyTruthy input_data.output_path = false →
        t.execute w input_data =
          ([], ExecOutcome.ok (errResult "output_path required for generate operation"))) ∧
    (input_data.operation = some "generate" → pyTruthy input_data.output_path = true →
        (input_data.number_of_images.getD 1 < 1 ∨ input_data.number_of_images.getD 1 > 4) →
        t.execute w input_data =
          ([], ExecOutcome.ok (errResult "number_of_images must be between 1 and 4"))) ∧
    (input_data.operation ≠ some "analyze" → input_data.operation ≠ some "compare" →
        input_data.operation ≠ some "generate" →
        t.execute w input_data =
          ([], ExecOutcome.ok (errResult ("Unknown operation: " ++
            pyStrOfOptionString input_data.operation ++
            ". Use \x27analyze\x27, \x27compare\x27, or \x27generate\x27")))) := by
  refine ⟨?_, ?_, ?_, ?_, ?_⟩
  · intro hop him
    simp [NanoBananaTool.execute, NanoBananaTool.tryBody, hkey, hop, him]
  · intro hop him
    simp [NanoBananaTool.execute, NanoBananaTool.tryBody, hkey, hop, him]
  · intro hop hout
    simp [NanoBananaTool.execute, NanoBananaTool.tryBody, hkey, hop, hout]
  · intro hop hout hn
    simp [NanoBananaTool.execute, NanoBananaTool.tryBody, hkey, hop, hout, hn]
  · intro hna hnc hng
    simp [NanoBananaTool.execute, NanoBananaTool.tryBody, hkey, hna, hnc, hng]

theorem c7_validation_short_circuit_witness :
    (NanoBananaTool.mk (some "key") none).execute trivialWorld
        { emptyInput with operation := some "analyze" } =
      ([], ExecOutcome.ok (errResult "image_path required for analyze operation")) :=
  (c7_validation_short_circuit (NanoBananaTool.mk (some "key") none) trivialWorld
    { emptyInput with operation := some "analyze" } rfl).1 rfl rfl

/-- The outbound contract of every returned ToolResult: success is false
exactly when error is populated, and on failure the output is the
message mirrored in error.message. -/
def ResultContract (r : ToolResult) : Prop :=
  ((r.success = false) ↔ r.error ≠ none) ∧
  (r.success = false → ∃ m, r.output = Output.str m ∧ r.error = some ⟨m⟩)

theorem errResult_contract (m : String) : ResultContract (errResult m) := by
  constructor
  · simp [errResult]
  · intro _
    exact ⟨m, rfl, rfl⟩

theorem success_contract (o : Output) : ResultContract ⟨true, o, none⟩ := by
  constructor
  · simp
  · intro h
    simp at h

set_option maxHeartbeats 10000000 in
theorem tryBody_contract (t : NanoBananaTool) (w : World) (input_data : InputData)
    (tr : List Event) (r : ToolResult)
    (h : t.tryBody w input_data = (tr, Except.ok r)) : ResultContract r := by
  unfold NanoBananaTool.tryBody at h
  dsimp only [] at h
  iterate 25 (all_goals (try split at h))
  all_goals
    first
    | (simp only [Prod.mk.injEq, Except.ok.injEq] at h
       rcases h with ⟨-, rfl⟩
       first
       | exact errResult_contract _
       | exact success_contract _)
    | simp at h

/-- Claim C5: every ToolResult returned by execute has success false
exactly when error is populated, and on failure the output is a string
equal to the error message. -/
theorem c5_result_contract (t : NanoBananaTool) (w : World) (input_data : InputData)
    (tr : List Event) (r : ToolResult)
    (h : t.execute w input_data = (tr, ExecOutcome.ok r)) :
    ((r.success = false) ↔ r.error ≠ none) ∧
    (r.success = false → ∃ m, r.output = Output.str m ∧ r.error = some ⟨m⟩) := by
  have hc : ResultContract r := by
    unfold NanoBananaTool.execute at h
    split at h
    · simp only [Prod.mk.injEq, ExecOutcome.ok.injEq] at h
      rcases h with ⟨-, rfl⟩
      exact errResult_contract _
    · split at h
      · rename_i tr2 r2 heq
        simp only [Prod.mk.injEq, ExecOutcome.ok.injEq] at h
        rcases h with ⟨-, rfl⟩
        exact tryBody_contract t w input_data tr2 r2 heq
      · rename_i tr2 e heq
        dsimp only [] at h
        split at h
        · simp only [Prod.mk.injEq, ExecOutcome.ok.injEq] at h
          rcases h with ⟨-, rfl⟩
          exact errResult_contract _
        · simp at h
  exact hc

theorem c5_result_contract_witness :
    (((errResult apiKeyErrorMsg).success = false) ↔ (errResult apiKeyErrorMsg).error ≠ none) ∧
    ((errResult apiKeyErrorMsg).success = false →
      ∃ m, (errResult apiKeyErrorMsg).output = Output.str m ∧
        (errResult apiKeyErrorMsg).error = some ⟨m⟩) :=
  c5_result_contract (NanoBananaTool.mk none none) trivialWorld emptyInput []
    (errResult apiKeyErrorMsg) rfl

/-- A world whose event bus raises on the failure notification and whose
file system is missing the requested file. -/
def c4World : World :=
  { emit := fun p =>
      match p with
      | EmitPayload.error _ _ => Except.error (PyExn.other "emit failed")
      | _ => Except.ok ()
    readFile := fun _ => Except.error (PyExn.fileNotFound "missing")
    mkdir := fun _ => Except.ok ()
    writeFile := fun _ _ => Except.ok ()
    generate_content := fun _ _ => Except.ok ⟨none, []⟩
    home := "/home/user"
    env_GOOGLE_API_KEY := none }

/-- An analyze request for a file that does not exist. -/
def c4Input : InputData :=
  { emptyInput with
      operation := some "analyze"
      prompt := some "p"
      image_path := some "a.png" }

/-- Claim C4, counterexample: when the best-effort tool.vlm.error emit
itself raises, the exception escapes execute and the original failure
result is lost, refuting the claim that execute returns a ToolResult for
every behaviour of the notification sink. -/
theorem c4_escape_counterexample :
    ((NanoBananaTool.mk (some "key") none).execute c4World c4Input).2 =
      ExecOutcome.raised (PyExn.other "emit failed") := by decide

/-- Claim C4, amended: for every input and every behaviour of the file
system and the remote provider, as long as the tool.vlm.error emit does
not itself raise, execute returns a ToolResult and lets no exception
escape; when that emit raises, its exception escapes and replaces the
original failure result. -/
theorem c4_no_escape_unless_error_emit_raises (t : NanoBananaTool) (w : World)
    (input_data : InputData)
    (hemit : ∀ m op, w.emit (EmitPayload.error m op) = Except.ok ()) :
    ∃ tr r, t.execute w input_data = (tr, ExecOutcome.ok r) := by
  by_cases hkey : pyTruthy t.api_key = false
  · exact ⟨[], errResult apiKeyErrorMsg, by simp [NanoBananaTool.execute, hkey]⟩
  · rcases htb : t.tryBody w input_data with ⟨tr, res⟩
    cases res with
    | ok r =>
      exact ⟨tr, r, by simp [NanoBananaTool.execute, hkey, htb]⟩
    | error e =>
      refine ⟨tr ++ [Event.emit (EmitPayload.error (exnMessage e) input_data.operation)],
        errResult (exnMessage e), ?_⟩
      simp [NanoBananaTool.execute, hkey, htb, hemit]

theorem c4_no_escape_witness :
    ∃ tr r, (NanoBananaTool.mk (some "key") none).execute trivialWorld emptyInput =
      (tr, ExecOutcome.ok r) :=
  c4_no_escape_unless_error_emit_raises (NanoBananaTool.mk (some "key") none) trivialWorld
    emptyInput (fun _ _ => rfl)

/-- Claim C10: every exception aborting the try body is converted by the
handlers into a failure result whose message is the FileNotFoundError
prefix for a missing file and the generic VLM-request prefix for every
other exception, including local file errors and pre-call emit failures,
after a tool.vlm.error notification. -/
theorem c10_exception_classification (t : NanoBananaTool) (w : World)
    (input_data : InputData) (tr : List Event) (e : PyExn)
    (hkey : pyTruthy t.api_key = true)
    (htb : t.tryBody w input_data = (tr, Except.error e))
    (hemit : w.emit (EmitPayload.error (exnMessage e) input_data.operation) = Except.ok ()) :
    t.execute w input_data =
      (tr ++ [Event.emit (EmitPayload.error (exnMessage e) input_data.operation)],
       ExecOutcome.ok (errResult (exnMessage e))) ∧
    (∀ m, exnMessage (PyExn.other m) = "VLM request failed: " ++ m) ∧
    (∀ m, exnMessage (PyExn.fileNotFound m) = "Image file not found: " ++ m) := by
  refine ⟨?_, fun m => rfl, fun m => rfl⟩
  simp [NanoBananaTool.execute, hkey, htb, hemit]

/-- A world whose file system refuses reads with a permission error. -/
def c10World : World :=
  { emit := fun _ => Except.ok ()
    readFile := fun _ => Except.error (PyExn.other "Permission denied")
    mkdir := fun _ => Except.ok ()
    writeFile := fun _ _ => Except.ok ()
    generate_content := fun _ _ => Except.ok ⟨none, []⟩
    home := "/home/user"
    env_GOOGLE_API_KEY := none }

/-- An analyze request used to exercise the generic exception handler. -/
def c10Input : InputData :=
  { emptyInput with
      operation := some "analyze"
      prompt := some "p"
      image_path := some "a.png" }

theorem c10_exception_classification_witness :
    (NanoBananaTool.mk (some "key") none).execute c10World c10Input =
      ([Event.emit (EmitPayload.analyze "a.png" modelName 1), Event.fileRead "a.png",
        Event.emit (EmitPayload.error "VLM request failed: Permission denied" (some "analyze"))],
       ExecOutcome.ok (errResult "VLM request failed: Permission denied")) := by
  have h := (c10_exception_classification (NanoBananaTool.mk (some "key") none) c10World
    c10Input [Event.emit (EmitPayload.analyze "a.png" modelName 1), Event.fileRead "a.png"]
    (PyExn.other "Permission denied") rfl rfl rfl).1
  rw [h]
  decide

theorem expNames_eq_nil_iff (output_path : PyPath) (n : Int) (s m : Nat) :
    expNames output_path n s m = [] ↔ m = 0 := by
  cases m <;> simp [expNames]

/-- Reduction of the try body for a valid generate request whose
provider response contains at least one inline image, when the pre-call
emit and every directory creation and write succeed. -/
theorem tryBody_generate_success (t : NanoBananaTool) (w : World) (input_data : InputData)
    (ops : String) (resp : GCResponse)
    (hop : input_data.operation = some "generate")
    (hout : input_data.output_path = some ops) (hne : ops ≠ "")
    (hn1 : 1 ≤ input_data.number_of_images.getD 1)
    (hn4 : input_data.number_of_images.getD 1 ≤ 4)
    (hemit : w.emit (EmitPayload.generate (t._resolve_path w.home ops).str modelName
        (input_data.prompt.getD "").length (input_data.number_of_images.getD 1)) = Except.ok ())
    (hgc : w.generate_content modelName [Content.text (input_data.prompt.getD "")] =
        Except.ok resp)
    (hmk : ∀ p, w.mkdir p = Except.ok ())
    (hwr : ∀ p d, w.writeFile p d = Except.ok ())
    (himg : imageDatas resp.parts ≠ []) :
    t.tryBody w input_data =
      (Event.emit (EmitPayload.generate (t._resolve_path w.home ops).str modelName
          (input_data.prompt.getD "").length (input_data.number_of_images.getD 1)) ::
        Event.remoteCall modelName [Content.text (input_data.prompt.getD "")] ::
          expWriteEvents (t._resolve_path w.home ops) (input_data.number_of_images.getD 1) 0
            (min (imageDatas resp.parts).length (input_data.number_of_images.getD 1).toNat),
       Except.ok
         { success := true
           output := Output.generated
             (expNames (t._resolve_path w.home ops) (input_data.number_of_images.getD 1) 0
               (min (imageDatas resp.parts).length (input_data.number_of_images.getD 1).toNat))
             (min (imageDatas resp.parts).length (input_data.number_of_images.getD 1).toNat)
             (resp.parts.findSome? GCPart.text)
           error := none }) := by
  have hptout : pyTruthy (some ops) = true := by
    simp [pyTruthy, hne]
  have hrange : ¬(input_data.number_of_images.getD 1 < 1 ∨
      input_data.number_of_images.getD 1 > 4) := by
    omega
  have h0n : (((0 : Nat) : Int)) < input_data.number_of_images.getD 1 := by
    push_cast
    omega
  have hwl := writeLoop_spec w.mkdir w.writeFile (t._resolve_path w.home ops)
    (input_data.number_of_images.getD 1) hmk hwr resp.parts [] 0 h0n
  simp only [Nat.sub_zero, List.nil_append, Nat.zero_add] at hwl
  have hlen : 0 < (imageDatas resp.parts).length := List.length_pos.mpr himg
  have hK : ¬(min (imageDatas resp.parts).length
      (input_data.number_of_images.getD 1).toNat = 0) := by
    omega
  simp [NanoBananaTool.tryBody, hop, hout, hptout, hrange, hemit, hgc, hwl,
    expNames_eq_nil_iff, expNames_length, hK]

/-- Reduction of the try body for a valid generate request whose
provider response contains no inline image at all. -/
theorem tryBody_generate_empty (t : NanoBananaTool) (w : World) (input_data : InputData)
    (ops : String) (resp : GCResponse)
    (hop : input_data.operation = some "generate")
    (hout : input_data.output_path = some ops) (hne : ops ≠ "")
    (hn1 : 1 ≤ input_data.number_of_images.getD 1)
    (hn4 : input_data.number_of_images.getD 1 ≤ 4)
    (hemit : w.emit (EmitPayload.generate (t._resolve_path w.home ops).str modelName
        (input_data.prompt.getD "").length (input_data.number_of_images.getD 1)) = Except.ok ())
    (hgc : w.generate_content modelName [Content.text (input_data.prompt.getD "")] =
        Except.ok resp)
    (hmk : ∀ p, w.mkdir p = Except.ok ())
    (hwr : ∀ p d, w.writeFile p d = Except.ok ())
    (himg : imageDatas resp.parts = []) :
    t.tryBody w input_data =
      ([Event.emit (EmitPayload.generate (t._resolve_path w.home ops).str modelName
          (input_data.prompt.getD "").length (input_data.number_of_images.getD 1)),
        Event.remoteCall modelName [Content.text (input_data.prompt.getD "")]],
       Except.ok (errResult "No images were generated by the model")) := by
  have hptout : pyTruthy (some ops) = true := by
    simp [pyTruthy, hne]
  have hrange : ¬(input_data.number_of_images.getD 1 < 1 ∨
      input_data.number_of_images.getD 1 > 4) := by
    omega
  have h0n : (((0 : Nat) : Int)) < input_data.number_of_images.getD 1 := by
    push_cast
    omega
  have hwl := writeLoop_spec w.mkdir w.writeFile (t._resolve_path w.home ops)
    (input_data.number_of_images.getD 1) hmk hwr resp.parts [] 0 h0n
  simp only [Nat.sub_zero, List.nil_append, Nat.zero_add, himg, List.length_nil,
    Nat.zero_min, Nat.min_zero] at hwl
  simp [NanoBananaTool.tryBody, hop, hout, hptout, hrange, hemit, hgc, hwl,
    expWriteEvents, expNames]

/-- Claim C2: for a valid generate request (truthy output path, count in
1..4) with a successful provider call, writable file system and at least
one returned image part, the k-th image part in provider order is
written to the resolved output path itself when one image was requested
and to the path with an underscore index k inserted between stem and
extension otherwise; writing stops once the requested count is reached
even if the provider returned more parts; and each write is immediately
preceded by creating the missing parent directories. -/
theorem c2_generate_naming (t : NanoBananaTool) (w : World) (input_data : InputData)
    (ops : String) (resp : GCResponse)
    (hkey : pyTruthy t.api_key = true)
    (hop : input_data.operation = some "generate")
    (hout : input_data.output_path = some ops) (hne : ops ≠ "")
    (hn1 : 1 ≤ input_data.number_of_images.getD 1)
    (hn4 : input_data.number_of_images.getD 1 ≤ 4)
    (hemit : w.emit (EmitPayload.generate (t._resolve_path w.home ops).str modelName
        (input_data.prompt.getD "").length (input_data.number_of_images.getD 1)) = Except.ok ())
    (hgc : w.generate_content modelName [Content.text (input_data.prompt.getD "")] =
        Except.ok resp)
    (hmk : ∀ p, w.mkdir p = Except.ok ())
    (hwr : ∀ p d, w.writeFile p d = Except.ok ())
    (himg : imageDatas resp.parts ≠ []) :
    t.execute w input_data =
      (Event.emit (EmitPayload.generate (t._resolve_path w.home ops).str modelName
          (input_data.prompt.getD "").length (input_data.number_of_images.getD 1)) ::
        Event.remoteCall modelName [Content.text (input_data.prompt.getD "")] ::
          expWriteEvents (t._resolve_path w.home ops) (input_data.number_of_images.getD 1) 0
            (min (imageDatas resp.parts).length (input_data.number_of_images.getD 1).toNat),
       ExecOutcome.ok
         { success := true
           output := Output.generated
             (expNames (t._resolve_path w.home ops) (input_data.number_of_images.getD 1) 0
               (min (imageDatas resp.parts).length (input_data.number_of_images.getD 1).toNat))
             (min (imageDatas resp.parts).length (input_data.number_of_images.getD 1).toNat)
             (resp.parts.findSome? GCPart.text)
           error := none }) ∧
    (expNames (t._resolve_path w.home ops) (input_data.number_of_images.getD 1) 0
        (min (imageDatas resp.parts).length (input_data.number_of_images.getD 1).toNat)).length =
      min (imageDatas resp.parts).length (input_data.number_of_images.getD 1).toNat ∧
    (∀ (i : Nat) (hi : i < (expNames (t._resolve_path w.home ops)
        (input_data.number_of_images.getD 1) 0
        (min (imageDatas resp.parts).length
          (input_data.number_of_images.getD 1).toNat)).length),
      (expNames (t._resolve_path w.home ops) (input_data.number_of_images.getD 1) 0
        (min (imageDatas resp.parts).length
          (input_data.number_of_images.getD 1).toNat)).get ⟨i, hi⟩ =
        (if input_data.number_of_images.getD 1 == 1 then t._resolve_path w.home ops
         else (t._resolve_path w.home ops).parent.join
           (PyPath.parse ((t._resolve_path w.home ops).stem ++ "_" ++ toString (i + 1) ++
             (t._resolve_path w.home ops).suffix))).str) := by
  have htb := tryBody_generate_success t w input_data ops resp hop hout hne hn1 hn4 hemit hgc
    hmk hwr himg
  refine ⟨?_, expNames_length _ _ _ _, ?_⟩
  · simp [NanoBananaTool.execute, hkey, htb]
  · intro i hi
    rw [expNames_get]
    simp [genOutputName]

/-- A provider returning five parts, four of them inline images. -/
def c2World : World :=
  { emit := fun _ => Except.ok ()
    readFile := fun _ => Except.ok [0]
    mkdir := fun _ => Except.ok ()
    writeFile := fun _ _ => Except.ok ()
    generate_content := fun _ _ => Except.ok ⟨some "hi",
      [⟨some [9], none⟩, ⟨none, some "cap"⟩, ⟨some [8], none⟩, ⟨some [7], none⟩,
       ⟨some [6], none⟩]⟩
    home := "/home/user"
    env_GOOGLE_API_KEY := none }

/-- A generate request for three images at out/pic.png. -/
def c2Input : InputData :=
  { emptyInput with
      operation := some "generate"
      prompt := some "p"
      output_path := some "out/pic.png"
      number_of_images := some 3 }

theorem c2_generate_naming_witness :
    (NanoBananaTool.mk (some "key") none).execute c2World c2Input =
      ([Event.emit (EmitPayload.generate "out/pic.png" modelName 1 3),
        Event.remoteCall modelName [Content.text "p"],
        Event.mkdir "out", Event.fileWrite "out/pic_1.png",
        Event.mkdir "out", Event.fileWrite "out/pic_2.png",
        Event.mkdir "out", Event.fileWrite "out/pic_3.png"],
       ExecOutcome.ok
         { success := true
           output := Output.generated ["out/pic_1.png", "out/pic_2.png", "out/pic_3.png"] 3
             (some "cap")
           error := none }) := by
  have h := (c2_generate_naming (NanoBananaTool.mk (some "key") none) c2World c2Input
    "out/pic.png"
    ⟨some "hi", [⟨some [9], none⟩, ⟨none, some "cap"⟩, ⟨some [8], none⟩, ⟨some [7], none⟩,
     ⟨some [6], none⟩]⟩
    rfl rfl rfl (by decide) (by decide) (by decide) rfl rfl (fun _ => rfl) (fun _ _ => rfl)
    (by decide)).1
  rw [h]
  decide

/-- Claim C3: for a valid generate request with a successful provider
call, zero returned image parts yield a failure with the no-images
message even though the remote call returned, while one or more image
parts yield success with exactly min(returned, requested) written paths
and a count equal to that length. -/
theorem c3_generate_count (t : NanoBananaTool) (w : World) (input_data : InputData)
    (ops : String) (resp : GCResponse)
    (hkey : pyTruthy t.api_key = true)
    (hop : input_data.operation = some "generate")
    (hout : input_data.output_path = some ops) (hne : ops ≠ "")
    (hn1 : 1 ≤ input_data.number_of_images.getD 1)
    (hn4 : input_data.number_of_images.getD 1 ≤ 4)
    (hemit : w.emit (EmitPayload.generate (t._resolve_path w.home ops).str modelName
        (input_data.prompt.getD "").length (input_data.number_of_images.getD 1)) = Except.ok ())
    (hgc : w.generate_content modelName [Content.text (input_data.prompt.getD "")] =
        Except.ok resp)
    (hmk : ∀ p, w.mkdir p = Except.ok ())
    (hwr : ∀ p d, w.writeFile p d = Except.ok ()) :
    (imageDatas resp.parts = [] →
        t.execute w input_data =
          ([Event.emit (EmitPayload.generate (t._resolve_path w.home ops).str modelName
              (input_data.prompt.getD "").length (input_data.number_of_images.getD 1)),
            Event.remoteCall modelName [Content.text (input_data.prompt.getD "")]],
           ExecOutcome.ok (errResult "No images were generated by the model"))) ∧
    (imageDatas resp.parts ≠ [] →
        ∃ paths txt,
          t.execute w input_data =
            (Event.emit (EmitPayload.generate (t._resolve_path w.home ops).str modelName
                (input_data.prompt.getD "").length (input_data.number_of_images.getD 1)) ::
              Event.remoteCall modelName [Content.text (input_data.prompt.getD "")] ::
                expWriteEvents (t._resolve_path w.home ops)
                  (input_data.number_of_images.getD 1) 0
                  (min (imageDatas resp.parts).length
                    (input_data.number_of_images.getD 1).toNat),
             ExecOutcome.ok
               { success := true
                 output := Output.generated paths paths.length txt
                 error := none }) ∧
          paths.length =
            min (imageDatas resp.parts).length (input_data.number_of_images.getD 1).toNat) := by
  constructor
  · intro himg
    have htb := tryBody_generate_empty t w input_data ops resp hop hout hne hn1 hn4 hemit hgc
      hmk hwr himg
    simp [NanoBananaTool.execute, hkey, htb]
  · intro himg
    have htb := tryBody_generate_success t w input_data ops resp hop hout hne hn1 hn4 hemit hgc
      hmk hwr himg
    refine ⟨expNames (t._resolve_path w.home ops) (input_data.number_of_images.getD 1) 0
        (min (imageDatas resp.parts).length (input_data.number_of_images.getD 1).toNat),
      resp.parts.findSome? GCPart.text, ?_, expNames_length _ _ _ _⟩
    simp [NanoBananaTool.execute, hkey, htb, expNames_length]

/-- A provider returning a single text-only part and no image. -/
def c3World : World :=
  { emit := fun _ => Except.ok ()
    readFile := fun _ => Except.ok [0]
    mkdir := fun _ => Except.ok ()
    writeFile := fun _ _ => Except.ok ()
    generate_content := fun _ _ => Except.ok ⟨none, [⟨none, some "t"⟩]⟩
    home := "/home/user"
    env_GOOGLE_API_KEY := none }

/-- A generate request with the default image count. -/
def c3Input : InputData :=
  { emptyInput with
      operation := some "generate"
      prompt := some "p"
      output_path := some "o.png" }

theorem c3_generate_count_witness :
    (NanoBananaTool.mk (some "key") none).execute c3World c3Input =
      ([Event.emit (EmitPayload.generate "o.png" modelName 1 1),
        Event.remoteCall modelName [Content.text "p"]],
       ExecOutcome.ok (errResult "No images were generated by the model")) := by
  have h := (c3_generate_count (NanoBananaTool.mk (some "key") none) c3World c3Input
    "o.png" ⟨none, [⟨none, some "t"⟩]⟩ rfl rfl rfl (by decide) (by decide) (by decide)
    rfl rfl (fun _ => rfl) (fun _ _ => rfl)).1 (by decide)
  rw [h]
  decide
